import Mathlib

/-!
Shallow embedding of the `sqlitedict` fork (files `sqlitemultithread.py`,
`sqlitedb.py`, `sqlitedict.py`) and proofs about the claims of its
specification.

Modelling conventions:
* Python exceptions are values of `PyError`; a method that can raise is a
  Lean function into `Except PyError _`.
* The serialization worker (`SqliteMultithread.run`) is a step function over
  an abstract database state `D`, parametrised by the backing engine's
  `exec`/`commit` primitives (the SQL engine itself is out of scope of the
  source).  Deliveries to result sinks and calls into the engine are
  recorded in an action trace.
* The key-value facade (`SqliteDict`) is modelled as a record holding the
  flag, the codec hooks and the table rows (in rowid order: SQLite assigns
  increasing rowids, so list order is insertion order); each method's SQL
  statement is translated to its effect on the row list.
-/

/-- Kinds of Python exceptions that the translated code can raise.
`nameError n` models `NameError: name 'n' is not defined`. -/
inductive PyError where
  | nameError (name : String)
  | runtimeError (msg : String)
  | keyError
  | assertionError
  | sqlError (msg : String)
deriving DecidableEq, Repr

/-! ### `SqliteMultithread` — the serialization worker

`sqlitemultithread.py` imports `logging`, `sqlite3`, `threading`,
`traceback`, `weakref` and `Queue` — and *not* `sys`, although
`sys.exc_info()` is referenced on lines 62, 73 and 99.  Consequently the
`except` handler in `run` (line 97-99) itself raises
`NameError: name 'sys' is not defined` when a statement fails; that
`NameError` is uncaught, so the worker thread terminates and
`self.exception` is never assigned.  The model below reproduces this. -/

/-- A result row, as streamed by the worker to a sink. -/
abbrev Row := List String

/-- An item placed on a result sink: either a row or the
`_RESPONSE_NO_MORE` end-of-results marker. -/
inductive WItem where
  | row (r : Row)
  | noMore
deriving DecidableEq, Repr

/-- A request on the worker's queue (`self.reqs`): the reserved `--close--`
and `--commit--` sentinels, or an SQL statement with bound arguments.
Sinks are identified by a number; `none` models a `None` result queue. -/
inductive WReq where
  | closeReq (sink : Option Nat)
  | commitReq (sink : Option Nat)
  | sql (stmt : String) (args : List String) (sink : Option Nat)
deriving DecidableEq, Repr

/-- An observable action of the worker: a call into the backing engine
(`cursor.execute`, `conn.commit`, `conn.close`) or a delivery to a result
sink (`_put`). -/
inductive Act where
  | dbExec (stmt : String) (args : List String)
  | dbCommit
  | dbClose
  | send (sink : Nat) (item : WItem)
deriving DecidableEq, Repr

/-- Mutable state of a `SqliteMultithread` instance: the abstract database
state owned by its connection, the captured-error slot (`self.exception`)
and the autocommit flag. -/
structure Worker (D : Type) where
  db : D
  exception : Option PyError
  autocommit : Bool
deriving DecidableEq, Repr

/-- Outcome of the worker processing one request: it continues its loop,
exits normally (the `--close--` branch: `break`, `conn.close()`, final
`_put`), or its thread dies on an uncaught exception. -/
inductive StepOut (D : Type) where
  | next (w : Worker D) (tr : List Act)
  | closed (tr : List Act)
  | crashed (e : PyError) (w : Worker D) (tr : List Act)
deriving DecidableEq, Repr

/-- `_put(queue_reference, item)` for a live reference: delivers when a
sink is present, is a no-op on `None` (returns 2 in the source). -/
def put (sink : Option Nat) (item : WItem) : List Act :=
  match sink with
  | none => []
  | some s => [Act.send s item]

/-- One iteration of the `while True` loop of `SqliteMultithread.run`,
given the backing engine's statement primitive `exec` (returning the new
database state and the rows the cursor will yield) and transaction
primitive `commitDb`.

* `--close--`: `assert res_ref` (an absent sink raises `AssertionError`),
  then `break`; after the loop: `conn.close()` then
  `_put(res_ref, _RESPONSE_NO_MORE)`.
* `--commit--`: `conn.commit()` then `_put(res_ref, _RESPONSE_NO_MORE)`.
* SQL: `cursor.execute(req, arg)`.  On success, if a sink is present every
  cursor row is delivered followed by the end marker, and if autocommit is
  set `conn.commit()` runs.  On failure the handler executes
  `self.exception = (e_type, e_value, e_tb) = sys.exc_info()`; `sys` is an
  undefined name, so the handler raises `NameError("sys")` before any
  assignment: the slot stays untouched, nothing is delivered, and the
  uncaught `NameError` kills the thread. -/
def runStep {D : Type} (exec : D → String → List String → Except PyError (D × List Row))
    (commitDb : D → D) (w : Worker D) : WReq → StepOut D
  | WReq.closeReq sink =>
      match sink with
      | none => StepOut.crashed PyError.assertionError w []
      | some s => StepOut.closed [Act.dbClose, Act.send s WItem.noMore]
  | WReq.commitReq sink =>
      StepOut.next { w with db := commitDb w.db } ([Act.dbCommit] ++ put sink WItem.noMore)
  | WReq.sql stmt args sink =>
      match exec w.db stmt args with
      | Except.ok (db', rows) =>
          StepOut.next { w with db := db' }
            ([Act.dbExec stmt args]
              ++ (match sink with
                  | none => []
                  | some s => rows.map (fun r => Act.send s (WItem.row r)) ++ [Act.send s WItem.noMore])
              ++ (if w.autocommit then [Act.dbCommit] else []))
      | Except.error _ =>
          StepOut.crashed (PyError.nameError "sys") w [Act.dbExec stmt args]

/-- Outcome of the worker consuming a whole queue of requests: it blocks
waiting for more requests, exits via `--close--`, or its thread dies. -/
inductive RunOut (D : Type) where
  | blocked (w : Worker D) (tr : List Act)
  | closed (tr : List Act)
  | crashed (e : PyError) (w : Worker D) (tr : List Act)
deriving DecidableEq, Repr

/-- The worker's loop over a list of queued requests, in arrival order. -/
def runList {D : Type} (exec : D → String → List String → Except PyError (D × List Row))
    (commitDb : D → D) (w : Worker D) : List WReq → RunOut D
  | [] => RunOut.blocked w []
  | r :: rs =>
      match runStep exec commitDb w r with
      | StepOut.next w' tr =>
          match runList exec commitDb w' rs with
          | RunOut.blocked w'' tr' => RunOut.blocked w'' (tr ++ tr')
          | RunOut.closed tr' => RunOut.closed (tr ++ tr')
          | RunOut.crashed e w'' tr' => RunOut.crashed e w'' (tr ++ tr')
      | StepOut.closed tr => RunOut.closed tr
      | StepOut.crashed e w' tr => RunOut.crashed e w' tr

/-- `SqliteMultithread.check_raise_error`: under the lock, if the slot is
set, clear it and re-raise the stored exception; otherwise a no-op.
Returns the raised error (if any) and the updated state. -/
def check_raise_error {D : Type} (w : Worker D) : Option PyError × Worker D :=
  match w.exception with
  | some e => (some e, { w with exception := none })
  | none => (none, w)

/-- A toy backing engine for concrete evaluations: database state is a
list of executed statements; the statement `"BROKEN"` fails, every other
statement succeeds and yields no rows. -/
def toyExec (db : List String) (stmt : String) (_args : List String) :
    Except PyError (List String × List Row) :=
  if stmt = "BROKEN" then Except.error (PyError.sqlError "toy failure")
  else Except.ok (db ++ [stmt], [])

/-- A fresh toy worker with an empty error slot. -/
def toyWorker : Worker (List String) :=
  { db := [], exception := none, autocommit := false }

/-! ### `SqliteDict` — the key-value facade

The table has columns `key` (TEXT PRIMARY KEY) and `value` (BLOB); its rows
are kept in rowid order, which is insertion order.  `K` is the Python key
type, `V` the value type, `EV` the encoded value type (the blob). -/

/-- State of a `SqliteDict` instance: the access flag, the autocommit flag,
the four codec hooks (`self.encode`, `self.decode`, `self.encode_key`,
`self.decode_key`), the table name, and the table's rows in rowid order
(encoded key paired with encoded value). -/
structure SqliteDict (K V EV : Type) where
  flag : String
  autocommit : Bool
  encode : V → EV
  decode : EV → V
  encode_key : K → String
  decode_key : String → K
  tablename : String
  rows : List (String × EV)

/-- A request submitted by a facade method to the engine: a commit
sentinel (`conn.commit()`) or an SQL statement (`conn.execute`). -/
inductive EngineReq where
  | commitReq
  | sqlReq (stmt : String)
deriving DecidableEq, Repr

namespace SqliteDict

variable {K V EV : Type}

/-- Effect on the row list of `REPLACE INTO "tbl" (key, value) VALUES (?,?)`:
any existing row with the same primary key is deleted and the new row is
inserted with a fresh (maximal) rowid, i.e. at the end. -/
def replaceInto (rows : List (String × EV)) (ek : String) (ev : EV) :
    List (String × EV) :=
  rows.filter (fun r => !(r.1 = ek : Bool)) ++ [(ek, ev)]

/-- `SELECT ... WHERE key = ?` consumed through `select_one`: the first
matching row, or `none`. -/
def findRow (rows : List (String × EV)) (ek : String) : Option (String × EV) :=
  rows.find? (fun r => (r.1 = ek : Bool))

/-- `__contains__`: `SELECT 1 FROM "tbl" WHERE key = ?` via `select_one`,
compared against `None`. -/
def contains (d : SqliteDict K V EV) (k : K) : Bool :=
  (findRow d.rows (d.encode_key k)).isSome

/-- `__getitem__`: `SELECT value FROM "tbl" WHERE key = ?` via
`select_one`; raises `KeyError` when no row matches, otherwise decodes the
stored blob. -/
def getitem (d : SqliteDict K V EV) (k : K) : Except PyError V :=
  match findRow d.rows (d.encode_key k) with
  | none => Except.error PyError.keyError
  | some r => Except.ok (d.decode r.2)

/-- `__setitem__`: refuses on a read-only store, otherwise submits
`REPLACE INTO "tbl" (key, value) VALUES (?,?)` with the encoded key and
value (followed by a commit when autocommit is set, which does not change
the rows). -/
def setitem (d : SqliteDict K V EV) (k : K) (v : V) :
    Except PyError (SqliteDict K V EV) :=
  if d.flag = "r" then
    Except.error (PyError.runtimeError "Refusing to write to read-only SqliteDict")
  else
    Except.ok { d with rows := replaceInto d.rows (d.encode_key k) (d.encode v) }

/-- `__delitem__`: refuses on a read-only store; raises `KeyError` when the
key is absent (checked through `__contains__` before any DELETE is
submitted, so the table is untouched); otherwise submits
`DELETE FROM "tbl" WHERE key = ?`. -/
def delitem (d : SqliteDict K V EV) (k : K) :
    Except PyError (SqliteDict K V EV) :=
  if d.flag = "r" then
    Except.error (PyError.runtimeError "Refusing to delete from read-only SqliteDict")
  else if !(contains d k) then
    Except.error PyError.keyError
  else
    Except.ok { d with rows := d.rows.filter (fun r => !(r.1 = d.encode_key k : Bool)) }

/-- `update`: refuses on a read-only store; encodes each pair and submits
one `REPLACE INTO` per pair through `executemany`, in order. -/
def update (d : SqliteDict K V EV) (items : List (K × V)) :
    Except PyError (SqliteDict K V EV) :=
  if d.flag = "r" then
    Except.error (PyError.runtimeError "Refusing to update read-only SqliteDict")
  else
    Except.ok { d with
      rows := items.foldl
        (fun rs p => replaceInto rs (d.encode_key p.1) (d.encode p.2)) d.rows }

/-- The SQL text of `clear`'s `CLEAR_ALL` statement. -/
def CLEAR_ALL (d : SqliteDict K V EV) : String :=
  "DELETE FROM \"" ++ d.tablename ++ "\";"

/-- `clear`: refuses on a read-only store; otherwise runs `conn.commit()`,
`conn.execute(CLEAR_ALL)`, `conn.commit()`, in that order.  Returns the new
state together with the sequence of requests submitted to the engine. -/
def clear (d : SqliteDict K V EV) :
    Except PyError (SqliteDict K V EV × List EngineReq) :=
  if d.flag = "r" then
    Except.error (PyError.runtimeError "Refusing to clear read-only SqliteDict")
  else
    Except.ok ({ d with rows := [] },
      [EngineReq.commitReq, EngineReq.sqlReq (CLEAR_ALL d), EngineReq.commitReq])

/-- `__len__`: `SELECT COUNT(*) FROM "tbl"` — the number of rows. -/
def len (d : SqliteDict K V EV) : Nat :=
  d.rows.length

/-- `__bool__`: `SELECT MAX(ROWID) FROM "tbl"`; the maximum is non-NULL
exactly when the table has at least one row. -/
def toBool (d : SqliteDict K V EV) : Bool :=
  !d.rows.isEmpty

/-- `keys` = `list(iterkeys())`: `SELECT key FROM "tbl" ORDER BY rowid`,
decoding each stored key with `decode_key`. -/
def keys (d : SqliteDict K V EV) : List K :=
  d.rows.map (fun r => d.decode_key r.1)

/-- `iteritems` materialised: `SELECT key, value FROM "tbl" ORDER BY
rowid`, decoding each pair. -/
def items (d : SqliteDict K V EV) : List (K × V) :=
  d.rows.map (fun r => (d.decode_key r.1, d.decode r.2))

/-- Sequential `__setitem__` calls, one per pair, in order. -/
def insertSeq (d : SqliteDict K V EV) (ps : List (K × V)) :
    Except PyError (SqliteDict K V EV) :=
  ps.foldlM (fun acc p => setitem acc p.1 p.2) d

end SqliteDict

/-! ### `SqliteDb` — store lifecycle

`sqlitedb.py` line 29 reads `if flag not in BaseSqlite.VALID_FLAGS:`, but
`BaseSqlite` is defined nowhere in the repository and is not imported, so
evaluating the condition raises `NameError: name 'BaseSqlite' is not
defined` — before the flag is compared, for every flag value.  (Line 63's
`SqliteMultithread(...)` is likewise an undefined name in `sqlitedb.py`,
but line 29 fires first.)  Everything after line 29 of `__init__` is
unreachable. -/

/-- The flags the class declares as valid (`SqliteDb.VALID_FLAGS`). -/
def SqliteDb.VALID_FLAGS : List String := ["c", "r", "w", "n"]

/-- Handle state of a constructed `SqliteDb`: the connection field
(`self.conn`, carrying the worker's autocommit flag; `none` once closed),
whether the store was created from a transient temp file (`self.in_temp`),
the backing filename and the access flag. -/
structure DbHandle where
  conn : Option Bool
  in_temp : Bool
  filename : String
  flag : String
deriving DecidableEq, Repr

/-- `SqliteDb.__init__(filename, tablename, flag, autocommit, ...)`.
Line 29 dereferences the undefined name `BaseSqlite`, so the constructor
unconditionally raises `NameError("BaseSqlite")`; the flag validation, the
directory check, the worker start, the read-only table check and the
`create_table`/`clear` calls on lines 30-60 are dead code. -/
def SqliteDb.init (_filename _tablename _flag : String) (_autocommit : Bool) :
    Except PyError DbHandle :=
  Except.error (PyError.nameError "BaseSqlite")

/-- Actions performed by `SqliteDb.close`/`terminate`: blocking commit of
the worker (`self.conn.commit(blocking=True)`), submission of the close
sentinel (`self.conn.close()`), and a `try: os.remove(fn) except: pass`
whose failure is swallowed. -/
inductive CloseAct where
  | submitCommit
  | submitClose
  | osRemove (fn : String)
deriving DecidableEq, Repr

/-- `SqliteDb.close(do_log, force)`: when `self.conn` is not `None`, first
commit (blocking) if the worker is in autocommit mode and the close is not
forced, then close the worker and set `self.conn = None`; afterwards, when
the store lives in a temp file, try to delete it, swallowing any error.
Total: every raisable operation on this path is either guarded (`conn is
None`) or wrapped in `try/except: pass`. -/
def SqliteDb.close (st : DbHandle) (force : Bool) : DbHandle × List CloseAct :=
  let (st1, tr1) :=
    match st.conn with
    | some ac =>
        ({ st with conn := none },
          (if ac && !force then [CloseAct.submitCommit] else []) ++ [CloseAct.submitClose])
    | none => (st, [])
  (st1, tr1 ++ (if st.in_temp then [CloseAct.osRemove st.filename] else []))

/-- `SqliteDb.terminate`: refuses on a read-only store; otherwise closes,
then deletes the backing file unless it is the `:memory:` sentinel,
swallowing filesystem errors. -/
def SqliteDb.terminate (st : DbHandle) : Except PyError (DbHandle × List CloseAct) :=
  if st.flag = "r" then
    Except.error (PyError.runtimeError "Refusing to terminate read-only SqliteDict")
  else
    let p := SqliteDb.close st false
    Except.ok (p.1, p.2 ++ (if st.filename = ":memory:" then [] else [CloseAct.osRemove st.filename]))

/-! ### Concrete instances used to evaluate the definitions -/

/-- A writable `SqliteDict` over string keys and numeric values with
identity codec hooks and an empty table. -/
def sDict : SqliteDict String Nat Nat :=
  { flag := "c", autocommit := false, encode := id, decode := id,
    encode_key := id, decode_key := id, tablename := "t", rows := [] }

/-- `sDict` with two rows already present. -/
def wDict6 : SqliteDict String Nat Nat :=
  { sDict with rows := [("a", 5), ("b", 7)] }

/-- A read-only `SqliteDict` whose table holds the single pair
`("b", 2)`. -/
def roDict : SqliteDict String Nat Nat :=
  { sDict with flag := "r", rows := [("b", 2)] }

/-- A read-only `SqliteDb` handle over a plain file. -/
def roHandle : DbHandle :=
  { conn := some false, in_temp := false, filename := "file.db", flag := "r" }

/-! ### Helper lemmas -/

/-- A `find?` over a list filtered by the negated predicate finds
nothing. -/
theorem find?_filter_not {α : Type} (p : α → Bool) (l : List α) :
    (l.filter (fun x => !p x)).find? p = none := by
  induction l with
  | nil => rfl
  | cons a t ih =>
      by_cases h : p a
      · simp [List.filter_cons, h, ih]
      · simp [List.filter_cons, List.find?_cons, h, ih]

/-- `find?` skips a prefix in which it finds nothing. -/
theorem find?_append_none {α : Type} (p : α → Bool) (l₁ l₂ : List α)
    (h : l₁.find? p = none) : (l₁ ++ l₂).find? p = l₂.find? p := by
  induction l₁ with
  | nil => rfl
  | cons a t ih =>
      by_cases hp : p a
      · rw [List.find?_cons_of_pos _ hp] at h
        exact absurd h (by simp)
      · rw [List.find?_cons_of_neg _ hp] at h
        show ((a :: (t ++ l₂)).find? p) = l₂.find? p
        rw [List.find?_cons_of_neg _ hp]
        exact ih h

/-- Looking up the key just written by `replaceInto` yields the new
row. -/
theorem findRow_replaceInto {EV : Type} (rows : List (String × EV)) (ek : String) (ev : EV) :
    SqliteDict.findRow (SqliteDict.replaceInto rows ek ev) ek = some (ek, ev) := by
  unfold SqliteDict.findRow SqliteDict.replaceInto
  rw [find?_append_none _ _ _ (find?_filter_not _ _)]
  simp [List.find?_cons]

/-- `insertSeq` on a writable store never fails, and its net effect on the
rows is the fold of `replaceInto` over the encoded pairs. -/
theorem insertSeq_spec {K V EV : Type} (ps : List (K × V)) (d : SqliteDict K V EV)
    (hflag : d.flag ≠ "r") :
    SqliteDict.insertSeq d ps = Except.ok { d with
      rows := ps.foldl
        (fun rs p => SqliteDict.replaceInto rs (d.encode_key p.1) (d.encode p.2)) d.rows } := by
  induction ps generalizing d with
  | nil => rfl
  | cons p t ih =>
      have hset : SqliteDict.setitem d p.1 p.2 = Except.ok
          { d with rows := SqliteDict.replaceInto d.rows (d.encode_key p.1) (d.encode p.2) } := by
        simp [SqliteDict.setitem, hflag]
      have hunfold : SqliteDict.insertSeq d (p :: t) =
          (SqliteDict.setitem d p.1 p.2 >>= fun d1 => SqliteDict.insertSeq d1 t) := rfl
      rw [hunfold, hset]
      show SqliteDict.insertSeq
        { d with rows := SqliteDict.replaceInto d.rows (d.encode_key p.1) (d.encode p.2) } t = _
      rw [ih { d with rows := SqliteDict.replaceInto d.rows (d.encode_key p.1) (d.encode p.2) } hflag]
      rfl

/-- Folding `replaceInto` over pairs whose keys are fresh for the existing
rows and mutually distinct appends the pairs in order. -/
theorem foldl_replaceInto_fresh {EV : Type} (ps : List (String × EV)) :
    ∀ R : List (String × EV), (∀ q ∈ ps, q.1 ∉ R.map Prod.fst) →
      (ps.map Prod.fst).Nodup →
      ps.foldl (fun rs q => SqliteDict.replaceInto rs q.1 q.2) R = R ++ ps := by
  induction ps with
  | nil => intro R _ _; simp
  | cons q t ih =>
      intro R hfresh hnd
      have h2 : R.filter (fun r => !(r.1 = q.1 : Bool)) = R := by
        rw [List.filter_eq_self]
        intro r hr
        have hne : r.1 ≠ q.1 := by
          intro he
          exact hfresh q (List.mem_cons_self q t) (he ▸ List.mem_map_of_mem Prod.fst hr)
        simp [hne]
      have h1 : SqliteDict.replaceInto R q.1 q.2 = R ++ [q] := by
        unfold SqliteDict.replaceInto
        rw [h2]
      rw [List.foldl_cons, h1, ih (R ++ [q]) ?hfr ?hnd2]
      · simp
      case hfr =>
        intro p hp
        rw [List.map_append, List.mem_append]
        rintro (hL | hR)
        · exact hfresh p (List.mem_cons_of_mem q hp) hL
        · have hpq : p.1 = q.1 := by simpa using hR
          have : q.1 ∈ t.map Prod.fst := hpq ▸ List.mem_map_of_mem Prod.fst hp
          exact (List.nodup_cons.1 (by simpa using hnd)).1 this
      case hnd2 =>
        exact (List.nodup_cons.1 (by simpa using hnd)).2

/-- Deleting a present key from a table with pairwise-distinct keys
removes exactly one row. -/
theorem filter_length_of_mem_nodup {EV : Type} (l : List (String × EV)) (ek : String)
    (hmem : ek ∈ l.map Prod.fst) (hnd : (l.map Prod.fst).Nodup) :
    (l.filter (fun r => !(r.1 = ek : Bool))).length + 1 = l.length := by
  induction l with
  | nil => simp at hmem
  | cons a t ih =>
      rw [List.map_cons] at hmem hnd
      by_cases ha : a.1 = ek
      · have hnot : ek ∉ t.map Prod.fst := ha ▸ (List.nodup_cons.1 hnd).1
        have hfeq : t.filter (fun r => !(r.1 = ek : Bool)) = t := by
          rw [List.filter_eq_self]
          intro r hr
          have : r.1 ≠ ek := fun he => hnot (he ▸ List.mem_map_of_mem Prod.fst hr)
          simp [this]
        simp [List.filter_cons, ha, hfeq]
      · have hmem' : ek ∈ t.map Prod.fst := by
          rcases List.mem_cons.1 hmem with h | h
          · exact absurd h.symm ha
          · exact h
        have := ih hmem' (List.nodup_cons.1 hnd).2
        have hcond : (!(a.1 = ek : Bool)) = true := by simp [ha]
        rw [List.filter_cons, if_pos hcond]
        simp only [List.length_cons]
        omega

/-- `__contains__` returns `false` when no row stores the encoded key. -/
theorem contains_eq_false_of_absent {K V EV : Type} (d : SqliteDict K V EV) (k : K)
    (hab : d.encode_key k ∉ d.rows.map Prod.fst) : d.contains k = false := by
  unfold SqliteDict.contains SqliteDict.findRow
  have hfind : d.rows.find? (fun r => (r.1 = d.encode_key k : Bool)) = none := by
    rw [List.find?_eq_none]
    intro r hr
    have : r.1 ≠ d.encode_key k := fun he => hab (he ▸ List.mem_map_of_mem Prod.fst hr)
    simp [this]
  rw [hfind]
  rfl

/-- `__delitem__` of an absent key raises `KeyError` (after the
containment check, before any DELETE). -/
theorem delitem_absent {K V EV : Type} (d : SqliteDict K V EV) (k : K)
    (hflag : d.flag ≠ "r") (hab : d.encode_key k ∉ d.rows.map Prod.fst) :
    d.delitem k = Except.error PyError.keyError := by
  unfold SqliteDict.delitem
  rw [if_neg hflag, contains_eq_false_of_absent d k hab]
  rfl

/-! ### Claims -/

/-- C1.  The claim says an engine-execution failure from a fire-and-forget
write is captured into the error slot and re-raised exactly once at the
next call into the engine.  In the code, the worker's `except` handler
evaluates `sys.exc_info()` with `sys` unimported, so the handler itself
raises `NameError("sys")`: the worker thread dies, the slot is never set
(`exception` stays `none`), and the next `check_raise_error` re-raises
nothing — the failure is delivered zero times.  Evaluated here on a
concrete failing statement. -/
theorem claim_C1_error_never_captured :
    runStep toyExec id toyWorker (WReq.sql "BROKEN" [] none) =
      StepOut.crashed (PyError.nameError "sys") toyWorker [Act.dbExec "BROKEN" []] ∧
    toyWorker.exception = none ∧
    check_raise_error toyWorker = (none, toyWorker) :=
  ⟨rfl, rfl, rfl⟩

/-- C2.  The claim says a failing statement is non-fatal to the worker,
which keeps processing subsequent requests and still delivers the
end-of-results marker to the failing request's sink.  In the code the
`except` handler raises `NameError("sys")` (missing `import sys`), so the
worker thread terminates at the failing request: the subsequent request is
never executed and no end marker reaches the sink. -/
theorem claim_C2_worker_dies_on_failure :
    runList toyExec id toyWorker
        [WReq.sql "BROKEN" [] (some 1), WReq.sql "GOOD" [] (some 2)] =
      RunOut.crashed (PyError.nameError "sys") toyWorker [Act.dbExec "BROKEN" []] ∧
    Act.dbExec "GOOD" [] ∉ [Act.dbExec "BROKEN" ([] : List String)] ∧
    Act.send 1 WItem.noMore ∉ [Act.dbExec "BROKEN" ([] : List String)] :=
  ⟨rfl, by decide, by decide⟩

/-- C3.  The claim says an invalid access flag raises a configuration
error and a valid flag lets construction proceed.  In the code,
`SqliteDb.__init__` line 29 evaluates `BaseSqlite.VALID_FLAGS` where
`BaseSqlite` is an undefined name, so *every* construction — with the
valid flag `"c"` just as with the invalid flag `"x"` — raises
`NameError("BaseSqlite")` before the flag is ever compared. -/
theorem claim_C3_constructor_name_error :
    SqliteDb.init "file.db" "tbl" "c" false = Except.error (PyError.nameError "BaseSqlite") ∧
    "c" ∈ SqliteDb.VALID_FLAGS ∧
    SqliteDb.init "file.db" "tbl" "x" false = Except.error (PyError.nameError "BaseSqlite") ∧
    "x" ∉ SqliteDb.VALID_FLAGS :=
  ⟨rfl, by decide, rfl, by decide⟩

/-- C7.  The claim describes read-only mode end to end: construction with
flag `"r"` raises a configuration error when the table is missing and
otherwise succeeds, after which the mutators raise permission errors while
reads succeed.  The mutator guards and the read paths do behave as
claimed (shown below on a concrete read-only state), but no read-only
store can ever be constructed: `SqliteDb.__init__` raises
`NameError("BaseSqlite")` on line 29, before the read-only table check on
lines 50-53 is reached. -/
theorem claim_C7_read_only_mode :
    SqliteDb.init "file.db" "t" "r" false = Except.error (PyError.nameError "BaseSqlite") ∧
    roDict.setitem "a" 1 =
      Except.error (PyError.runtimeError "Refusing to write to read-only SqliteDict") ∧
    roDict.delitem "b" =
      Except.error (PyError.runtimeError "Refusing to delete from read-only SqliteDict") ∧
    roDict.update [("a", 1)] =
      Except.error (PyError.runtimeError "Refusing to update read-only SqliteDict") ∧
    roDict.clear =
      Except.error (PyError.runtimeError "Refusing to clear read-only SqliteDict") ∧
    SqliteDb.terminate roHandle =
      Except.error (PyError.runtimeError "Refusing to terminate read-only SqliteDict") ∧
    roDict.getitem "b" = Except.ok 2 ∧
    roDict.contains "b" = true ∧
    roDict.keys = ["b"] :=
  ⟨rfl, rfl, rfl, rfl, rfl, rfl, rfl, rfl, rfl⟩

/-- C9.  On the `--commit--` sentinel the worker commits the open
transaction and delivers only the end marker (no rows) to the request's
sink; on the `--close--` sentinel it exits its loop (any queued requests
behind it are not processed), closes the connection, and then delivers the
end marker to the closer's sink. -/
theorem claim_C9_sentinel_requests (D : Type)
    (exec : D → String → List String → Except PyError (D × List Row))
    (commitDb : D → D) (w : Worker D) (s t : Nat) (rest : List WReq) :
    runStep exec commitDb w (WReq.commitReq (some s)) =
      StepOut.next { w with db := commitDb w.db } [Act.dbCommit, Act.send s WItem.noMore] ∧
    runList exec commitDb w (WReq.closeReq (some t) :: rest) =
      RunOut.closed [Act.dbClose, Act.send t WItem.noMore] :=
  ⟨rfl, rfl⟩

/-- C10.  `SqliteDb.close` clears `self.conn`; any further `close` call
finds `conn is None`, so it submits neither a commit nor a second close
sentinel and touches only the temp-file deletion branch (whose failures
the code swallows), returning without error. -/
theorem claim_C10_close_idempotent (st : DbHandle) (force force' : Bool) :
    (SqliteDb.close st force).1.conn = none ∧
    (SqliteDb.close (SqliteDb.close st force).1 force').1 = (SqliteDb.close st force).1 ∧
    (SqliteDb.close (SqliteDb.close st force).1 force').2 =
      (if st.in_temp then [CloseAct.osRemove st.filename] else []) ∧
    CloseAct.submitClose ∉ (SqliteDb.close (SqliteDb.close st force).1 force').2 ∧
    CloseAct.submitCommit ∉ (SqliteDb.close (SqliteDb.close st force).1 force').2 := by
  rcases st with ⟨conn, in_temp, filename, flag⟩
  cases conn <;> cases in_temp <;>
    simp [SqliteDb.close]

/-- C4.  On a writable store, `__setitem__(k, v)` followed by
`__getitem__(k)` returns `v`: the REPLACE stores the encoded key and
value, the SELECT finds that row (the replace removed any older row for
the key), and decoding undoes the configured encoding. -/
theorem claim_C4_set_get_roundtrip {K V EV : Type} (d : SqliteDict K V EV) (k : K) (v : V)
    (hflag : d.flag ≠ "r") (hdec : ∀ x : V, d.decode (d.encode x) = x) :
    ∃ d', d.setitem k v = Except.ok d' ∧ d'.getitem k = Except.ok v := by
  refine ⟨{ d with rows := SqliteDict.replaceInto d.rows (d.encode_key k) (d.encode v) }, ?_, ?_⟩
  · simp [SqliteDict.setitem, hflag]
  · have h := findRow_replaceInto d.rows (d.encode_key k) (d.encode v)
    simp [SqliteDict.getitem, h, hdec]

/-- Witness for C4, at the concrete store `sDict`, key `"a"`, value
`42`. -/
theorem claim_C4_witness :
    sDict.flag ≠ "r" ∧ (∀ x : Nat, sDict.decode (sDict.encode x) = x) ∧
    ∃ d', sDict.setitem "a" 42 = Except.ok d' ∧ d'.getitem "a" = Except.ok 42 :=
  ⟨by decide, fun _ => rfl, claim_C4_set_get_roundtrip sDict "a" 42 (by decide) (fun _ => rfl)⟩

/-- C6.  For an absent key (no row stores its encoded form):
`__getitem__` raises `KeyError`, `__contains__` returns `False`, and
`__delitem__` raises `KeyError` from its containment check before any
DELETE is submitted, so the table is unchanged.  For a present key,
`__delitem__` removes the rows holding that key — exactly one row when
the table keys are distinct (they are, `key` being the primary key). -/
theorem claim_C6_missing_key {K V EV : Type} (d : SqliteDict K V EV) (k : K)
    (hflag : d.flag ≠ "r") :
    (d.encode_key k ∉ d.rows.map Prod.fst →
      d.contains k = false ∧
      d.getitem k = Except.error PyError.keyError ∧
      d.delitem k = Except.error PyError.keyError) ∧
    (d.encode_key k ∈ d.rows.map Prod.fst →
      d.delitem k = Except.ok
        { d with rows := d.rows.filter (fun r => !(r.1 = d.encode_key k : Bool)) } ∧
      ((d.rows.map Prod.fst).Nodup →
        (d.rows.filter (fun r => !(r.1 = d.encode_key k : Bool))).length + 1 =
          d.rows.length)) := by
  constructor
  · intro hab
    have hfind : SqliteDict.findRow d.rows (d.encode_key k) = none := by
      unfold SqliteDict.findRow
      rw [List.find?_eq_none]
      intro r hr
      have : r.1 ≠ d.encode_key k := fun he => hab (he ▸ List.mem_map_of_mem Prod.fst hr)
      simp [this]
    have hcont : d.contains k = false := by
      unfold SqliteDict.contains
      rw [hfind]
      rfl
    refine ⟨hcont, ?_, ?_⟩
    · unfold SqliteDict.getitem
      rw [hfind]
    · unfold SqliteDict.delitem
      rw [if_neg hflag, hcont]
      rfl
  · intro hpre
    rcases List.mem_map.1 hpre with ⟨r, hr, hrk⟩
    have hcont : d.contains k = true := by
      unfold SqliteDict.contains SqliteDict.findRow
      rw [List.find?_isSome]
      exact ⟨r, hr, by simp [hrk]⟩
    constructor
    · unfold SqliteDict.delitem
      rw [if_neg hflag, hcont]
      rfl
    · intro hnd
      exact filter_length_of_mem_nodup d.rows (d.encode_key k) hpre hnd

/-- Witness for C6, at the concrete store `wDict6` (rows `a ↦ 5`,
`b ↦ 7`) and key `"a"`. -/
theorem claim_C6_witness :
    wDict6.flag ≠ "r" ∧
    ((wDict6.encode_key "a" ∉ wDict6.rows.map Prod.fst →
      wDict6.contains "a" = false ∧
      wDict6.getitem "a" = Except.error PyError.keyError ∧
      wDict6.delitem "a" = Except.error PyError.keyError) ∧
    (wDict6.encode_key "a" ∈ wDict6.rows.map Prod.fst →
      wDict6.delitem "a" = Except.ok
        { wDict6 with rows := wDict6.rows.filter (fun r => !(r.1 = wDict6.encode_key "a" : Bool)) } ∧
      ((wDict6.rows.map Prod.fst).Nodup →
        (wDict6.rows.filter (fun r => !(r.1 = wDict6.encode_key "a" : Bool))).length + 1 =
          wDict6.rows.length))) :=
  ⟨by decide, claim_C6_missing_key wDict6 "a" (by decide)⟩

/-- C8.  On a writable store, `clear` submits exactly `conn.commit()`,
`conn.execute('DELETE FROM "tbl";')`, `conn.commit()`, in that order; and
a bulk `update` followed by `clear` leaves `len(d) = 0` and
`bool(d) = False`. -/
theorem claim_C8_clear {K V EV : Type} (d : SqliteDict K V EV) (pairs : List (K × V))
    (hflag : d.flag ≠ "r") :
    (∃ d0, d.clear = Except.ok (d0,
      [EngineReq.commitReq, EngineReq.sqlReq d.CLEAR_ALL, EngineReq.commitReq])) ∧
    (∃ d1 d2 tr, d.update pairs = Except.ok d1 ∧ d1.clear = Except.ok (d2, tr) ∧
      d2.len = 0 ∧ d2.toBool = false) := by
  have hup : d.update pairs = Except.ok { d with
      rows := pairs.foldl
        (fun rs p => SqliteDict.replaceInto rs (d.encode_key p.1) (d.encode p.2)) d.rows } := by
    simp [SqliteDict.update, hflag]
  have hcl : ∀ d1 : SqliteDict K V EV, d1.flag = d.flag →
      d1.clear = Except.ok ({ d1 with rows := [] },
        [EngineReq.commitReq, EngineReq.sqlReq d1.CLEAR_ALL, EngineReq.commitReq]) := by
    intro d1 h1
    simp [SqliteDict.clear, h1, hflag]
  exact ⟨⟨_, hcl d rfl⟩, ⟨_, _, _, hup, hcl _ rfl, rfl, rfl⟩⟩

/-- Witness for C8, at the concrete store `sDict` and the bulk update
`{x: 1, y: 2}`. -/
theorem claim_C8_witness :
    sDict.flag ≠ "r" ∧
    ((∃ d0, sDict.clear = Except.ok (d0,
      [EngineReq.commitReq, EngineReq.sqlReq sDict.CLEAR_ALL, EngineReq.commitReq])) ∧
    (∃ d1 d2 tr, sDict.update [("x", 1), ("y", 2)] = Except.ok d1 ∧
      d1.clear = Except.ok (d2, tr) ∧ d2.len = 0 ∧ d2.toBool = false)) :=
  ⟨by decide, claim_C8_clear sDict [("x", 1), ("y", 2)] (by decide)⟩

/-- C5.  Inserting pairs with distinct (encoded) keys into an initially
empty table appends one row per pair in order, so `keys()` — the
`ORDER BY rowid` scan — returns the keys in insertion order; and a delete
of any key outside the inserted ones raises `KeyError` without touching
the table, so the order survives such deletes. -/
theorem claim_C5_insertion_order {K V EV : Type} (d : SqliteDict K V EV) (ps : List (K × V))
    (hflag : d.flag ≠ "r") (hrows : d.rows = [])
    (hnd : (ps.map (fun p => d.encode_key p.1)).Nodup)
    (hrt : ∀ p ∈ ps, d.decode_key (d.encode_key p.1) = p.1) :
    ∃ d', d.insertSeq ps = Except.ok d' ∧
      d'.keys = ps.map Prod.fst ∧
      ∀ u : K, d.encode_key u ∉ ps.map (fun p => d.encode_key p.1) →
        d'.delitem u = Except.error PyError.keyError := by
  have hkeysE : (ps.map (fun p => ((d.encode_key p.1, d.encode p.2) : String × EV))).map Prod.fst
      = ps.map (fun p => d.encode_key p.1) := by
    rw [List.map_map]
    exact List.map_congr_left (fun p _ => rfl)
  have hfold : List.foldl
      (fun rs p => SqliteDict.replaceInto rs (d.encode_key p.1) (d.encode p.2)) d.rows ps
      = ps.map (fun p => (d.encode_key p.1, d.encode p.2)) := by
    rw [hrows]
    have h1 : (ps.map (fun p => ((d.encode_key p.1, d.encode p.2) : String × EV))).foldl
        (fun rs q => SqliteDict.replaceInto rs q.1 q.2) [] =
        List.foldl (fun rs p => SqliteDict.replaceInto rs (d.encode_key p.1) (d.encode p.2)) [] ps := by
      rw [List.foldl_map]
    rw [← h1, foldl_replaceInto_fresh _ [] (by simp) (by rw [hkeysE]; exact hnd)]
    simp
  refine ⟨{ d with rows := ps.map (fun p => (d.encode_key p.1, d.encode p.2)) }, ?_, ?_, ?_⟩
  · rw [insertSeq_spec ps d hflag, hfold]
  · show (ps.map (fun p => ((d.encode_key p.1, d.encode p.2) : String × EV))).map
        (fun r => d.decode_key r.1) = ps.map Prod.fst
    rw [List.map_map]
    exact List.map_congr_left (fun p hp => hrt p hp)
  · intro u hu
    refine delitem_absent _ u hflag ?_
    show d.encode_key u ∉
      (ps.map (fun p => ((d.encode_key p.1, d.encode p.2) : String × EV))).map Prod.fst
    rw [hkeysE]
    exact hu

/-- Witness for C5, at the concrete store `sDict` and the pairs
`[("a", 1), ("b", 2)]`. -/
theorem claim_C5_witness :
    sDict.flag ≠ "r" ∧ sDict.rows = [] ∧
    ((["a", "b"] : List String).map (fun p => sDict.encode_key p)).Nodup ∧
    ∃ d', sDict.insertSeq [("a", 1), ("b", 2)] = Except.ok d' ∧
      d'.keys = ["a", "b"] ∧
      ∀ u : String, sDict.encode_key u ∉
          ([("a", 1), ("b", 2)] : List (String × Nat)).map (fun p => sDict.encode_key p.1) →
        d'.delitem u = Except.error PyError.keyError :=
  ⟨by decide, rfl, by decide,
    claim_C5_insertion_order sDict [("a", 1), ("b", 2)] (by decide) rfl (by decide)
      (fun _ _ => rfl)⟩
